import Mathlib

/-!
Verification of the content-copy-tool bookmap parser and migration
orchestrator, a shallow embedding of `src/lib/bookmap.py` and
`src/content-copy.py` (Python 2).

Conventions of the embedding:
* Machine strings are Lean `String`s. Where the source compares strings
  with the Python `is` operator (object identity), strings are modelled as
  `PyStr`, a value paired with an object id; CPython shares (interns) the
  string objects of length at most one, which the id allocator reproduces.
* Fallible code (`KeyError`, `ValueError`, `IndexError`) returns
  `Except String` or `Option`.
* Remote calls of the content service are abstracted by boolean outcome
  oracles (`wgFails`, `modFails`, ...): the orchestrator observes only the
  success or failure of each call.
* Python `for` statements over a list that the body mutates are modelled
  with the CPython semantics: an internal index advances by one per
  iteration and is compared against the current length of the list.
-/

/-- Python string object. `==` compares values, `is` compares object ids.
Ids below `freshOidBase` are reserved for the shared (interned) strings of
length at most one; independently parsed longer strings get distinct ids. -/
structure PyStr where
  oid : Nat
  val : String
  deriving DecidableEq

/-- First id available for non-interned string objects (larger than every
code point based id used by `internOid`). -/
def freshOidBase : Nat := 2000000

/-- Object id of an interned (length ≤ 1) string. -/
def internOid (s : String) : Nat :=
  match s.data with
  | [] => 0
  | c :: _ => c.toNat + 1

/-- Allocates the string object for a freshly parsed value, mirroring
CPython interning of strings of length at most one: such strings are shared,
longer strings are fresh objects. -/
def mkPyStr (ctr : Nat) (s : String) : PyStr × Nat :=
  if s.length ≤ 1 then (⟨internOid s, s⟩, ctr) else (⟨ctr, s⟩, ctr + 1)

/-- The Python `is` operator on strings: object identity. -/
def py_is (a b : PyStr) : Bool := a.oid == b.oid

/-- CNXModule (bookmap.py lines 307-328). `oid` is the object id used only
to identify the module across state updates; every data field keeps its
source name. `chapter_number` is a `PyStr` because content-copy.py line 133
compares chapter numbers with the Python `is` operator. -/
structure CNXModule where
  oid : Nat
  title : String
  section_number : String
  source_workspace_url : String
  source_id : String
  destination_workspace_url : String
  destination_id : String
  chapter_title : String
  chapter_number : PyStr
  unit_number : String
  unit_title : String
  valid : Bool
  deriving DecidableEq

/-- CNXModule.__init__ with the source defaults: every optional field is the
empty string (whose shared object id is `internOid ""` = 0) and `valid` is
initialized to `true`. -/
def CNXModule.make (oid : Nat) (title section_number : String) : CNXModule :=
  { oid := oid
    title := title
    section_number := section_number
    source_workspace_url := ""
    source_id := ""
    destination_workspace_url := ""
    destination_id := ""
    chapter_title := ""
    chapter_number := ⟨0, ""⟩
    unit_number := ""
    unit_title := ""
    valid := true }

/-- CNXModule.full_title (bookmap.py lines 333-337): the section number is
prefixed when it is neither the empty string nor a single space. The source
also tests `is not None`; the field is always a string in this embedding, so
that branch is dropped. -/
def CNXModule.full_title (m : CNXModule) : String :=
  if m.section_number ≠ "" ∧ m.section_number ≠ " " then
    m.section_number ++ " " ++ m.title
  else
    m.title

/-- Index of the first space character, mirroring the Python call
`str.index` on a space, which raises ValueError (here `none`) when the
string contains no space. -/
def firstSpace : List Char → Option Nat
  | [] => none
  | c :: cs => if c == ' ' then some 0 else (firstSpace cs).map (· + 1)

/-- True when the string begins with an ASCII digit, which is what
`regex.match` with the pattern `[0-9]` tests at the start of the string. -/
def startsWithDigit (s : String) : Bool :=
  match s.data with
  | [] => false
  | c :: _ => c.isDigit

/-- True when the string contains a space character. -/
def hasSpace (s : String) : Bool := s.data.any (fun c => c == ' ')

/-- Bookmap.strip_section_numbers (bookmap.py lines 142-148). When the title
begins with a digit it is cut at the first space; `none` models the
ValueError raised by `str.index` when the title contains no space. -/
def strip_section_numbers (title : String) : Option (String × String) :=
  match startsWithDigit title with
  | false => some ("", title)
  | true =>
    match firstSpace title.data with
    | none => none
    | some i => some (⟨title.data.take i⟩, ⟨title.data.drop (i + 1)⟩)

/-! Helper lemmas about `firstSpace` shared by several claims. -/

theorem firstSpace_split (cs : List Char) :
    ∀ i, firstSpace cs = some i →
      (cs.take i).all (fun ch => !(ch == ' ')) = true ∧
      cs = cs.take i ++ ' ' :: cs.drop (i + 1) := by
  induction cs with
  | nil => intro i h; simp [firstSpace] at h
  | cons c cs ih =>
    intro i h
    by_cases hc : c = ' '
    · subst hc
      simp [firstSpace] at h
      subst h
      simp
    · simp [firstSpace, hc] at h
      obtain ⟨j, hj, hji⟩ := h
      subst hji
      obtain ⟨h1, h2⟩ := ih j hj
      constructor
      · simpa [List.all_cons, hc] using h1
      · simpa using congrArg (c :: ·) h2

theorem firstSpace_none (cs : List Char) (h : firstSpace cs = none) :
    cs.all (fun c => !(c == ' ')) = true := by
  induction cs with
  | nil => simp
  | cons c cs ih =>
    by_cases hc : c = ' '
    · subst hc; simp [firstSpace] at h
    · simp [firstSpace, hc] at h
      simp [List.all_cons, hc, ih h]

theorem firstSpace_isSome_of_hasSpace (s : String) (h : hasSpace s = true) :
    (firstSpace s.data).isSome = true := by
  cases hfs : firstSpace s.data with
  | some i => rfl
  | none =>
    exfalso
    have hall := firstSpace_none s.data hfs
    unfold hasSpace at h
    obtain ⟨c, hc, hc2⟩ := List.any_eq_true.mp h
    have := List.all_eq_true.mp hall c hc
    simp at hc2
    simp [hc2] at this

/-- Characterization of the successful digit-leading split: the section
number is space free, nonempty, and the original title is the section
number, a single space, then the returned title. -/
theorem strip_split_characterization (t n r : String)
    (hd : startsWithDigit t = true)
    (h : strip_section_numbers t = some (n, r)) :
    hasSpace n = false ∧ n ≠ "" ∧ t = n ++ " " ++ r := by
  unfold strip_section_numbers at h
  rw [hd] at h
  cases hfs : firstSpace t.data with
  | none => rw [hfs] at h; exact absurd h (by simp)
  | some i =>
    rw [hfs] at h
    obtain ⟨h1, h2⟩ := firstSpace_split t.data i hfs
    have hn : n = ⟨t.data.take i⟩ := by
      have := h; simp at this; exact this.1.symm
    have hr : r = ⟨t.data.drop (i + 1)⟩ := by
      have := h; simp at this; exact this.2.symm
    subst hn; subst hr
    refine ⟨?_, ?_, ?_⟩
    · unfold hasSpace
      simp only [String.data]
      rw [List.any_eq_false]
      intro c hc
      have := List.all_eq_true.mp h1 c hc
      simpa using this
    · -- the head of t is a digit, hence not a space, hence i ≥ 1
      intro hcon
      have hi : 0 < i := by
        rcases Nat.eq_zero_or_pos i with h0 | h0
        · subst h0
          unfold startsWithDigit at hd
          cases hdata : t.data with
          | nil => rw [hdata] at hd; simp at hd
          | cons c cs =>
            rw [hdata] at hd
            have : t.data = ' ' :: t.data.drop 1 := by
              simpa using h2
            rw [hdata] at this
            have hcsp : c = ' ' := by exact (List.cons.injEq _ _ _ _ ▸ this).1
            rw [hcsp] at hd
            simp at hd
        · exact h0
      have : (⟨t.data.take i⟩ : String).data = [] := congrArg String.data hcon
      simp only at this
      rw [List.take_eq_nil_iff] at this
      rcases this with h0 | h0
      · omega
      · unfold startsWithDigit at hd
        rw [h0] at hd
        simp at hd
    · apply String.ext
      simp only [String.data_append]
      calc t.data = t.data.take i ++ ' ' :: t.data.drop (i + 1) := h2
        _ = (⟨t.data.take i⟩ : String).data ++ (" " : String).data ++
              (⟨t.data.drop (i + 1)⟩ : String).data := by simp [String.data]

/-- Claim C6 counterexample: the title "123" begins with a digit and contains
no space; strip_section_numbers does not return a split (the source raises
ValueError at `str.index`), refuting the claim that every input string is
split without crashing. -/
theorem claim_C6_counterexample : strip_section_numbers "123" = none := by decide

/-- Claim C6 (amended): a title that does not begin with a digit comes back
unchanged with an empty section number; a title that begins with a digit and
contains a space is split into a space free nonempty section number and the
remainder after the first space (so the input is section number, one space,
remainder); a title that begins with a digit but contains no space makes the
call fail (ValueError in the source) instead of returning. -/
theorem claim_C6_strip (t n r : String) :
    (startsWithDigit t = false → strip_section_numbers t = some ("", t)) ∧
    (startsWithDigit t = true → hasSpace t = true →
      (strip_section_numbers t).isSome = true) ∧
    (strip_section_numbers t = some (n, r) → startsWithDigit t = true →
      hasSpace n = false ∧ n ≠ "" ∧ t = n ++ " " ++ r) ∧
    (startsWithDigit t = true → hasSpace t = false →
      strip_section_numbers t = none) := by
  refine ⟨?_, ?_, ?_, ?_⟩
  · intro h; unfold strip_section_numbers; rw [h]
  · intro hd hs
    unfold strip_section_numbers
    rw [hd]
    cases hfs : firstSpace t.data with
    | some i => rfl
    | none =>
      have := firstSpace_isSome_of_hasSpace t hs
      rw [hfs] at this
      simp at this
  · intro h hd; exact strip_split_characterization t n r hd h
  · intro hd hs
    unfold strip_section_numbers
    rw [hd]
    cases hfs : firstSpace t.data with
    | none => rfl
    | some i =>
      exfalso
      obtain ⟨-, h2⟩ := firstSpace_split t.data i hfs
      unfold hasSpace at hs
      rw [List.any_eq_false] at hs
      have : ' ' ∈ t.data := by rw [h2]; simp
      have := hs ' ' this
      simp at this

/-- Claim C6 witness: the spec example "3.2 Forces and Motion" discharges the
digit-and-space hypotheses of the amended claim. -/
theorem claim_C6_witness :
    hasSpace "3.2" = false ∧ "3.2" ≠ "" ∧
      "3.2 Forces and Motion" = "3.2" ++ " " ++ "Forces and Motion" :=
  (claim_C6_strip "3.2 Forces and Motion" "3.2" "Forces and Motion").2.2.1
    (by decide) (by decide)

/-- Claim C7 counterexample: a module whose section number is the single
space string. full_title returns the bare title, while the claim as stated
(section number nonempty, hence prefixed) demands the concatenation. -/
theorem claim_C7_counterexample :
    (CNXModule.make 0 "Forces" " ").full_title = "Forces" ∧
      (" " : String) ≠ "" ∧
      ("Forces" : String) ≠ " " ++ " " ++ "Forces" := by
  refine ⟨?_, by decide, by decide⟩
  decide

/-- Claim C7 (amended): full_title prefixes the section number exactly when
the section number is nonempty and not the single space string; otherwise
the title is returned alone. -/
theorem claim_C7_full_title (m : CNXModule) :
    (m.section_number ≠ "" → m.section_number ≠ " " →
      m.full_title = m.section_number ++ " " ++ m.title) ∧
    (m.section_number = "" ∨ m.section_number = " " → m.full_title = m.title) := by
  constructor
  · intro h1 h2
    unfold CNXModule.full_title
    rw [if_pos ⟨h1, h2⟩]
  · intro h
    unfold CNXModule.full_title
    rw [if_neg]
    rcases h with h | h <;> simp [h]

/-- Claim C7 witness: a module with section number "3.2" discharges both
hypotheses of the prefixed branch. -/
theorem claim_C7_witness :
    (CNXModule.make 0 "Forces" "3.2").full_title = "3.2" ++ " " ++ "Forces" :=
  (claim_C7_full_title (CNXModule.make 0 "Forces" "3.2")).1 (by decide) (by decide)

/-! ## Tabular manifest parsing (bookmap.py) -/

/-- One parsed data row of the manifest: the csv.DictReader association from
column name to cell value. The header names are pairwise distinct in every
input considered here, so lookup takes the first binding. -/
abbrev Row := List (String × String)

/-- Column lookup in a row; `none` is the KeyError case. -/
def rowGet (row : Row) (col : String) : Option String :=
  (row.find? (fun p => p.1 == col)).map (fun p => p.2)

/-- BookmapConfiguration (bookmap.py lines 10-32). -/
structure BookmapConfiguration where
  chapter_number_column : String
  chapter_title_column : String
  module_title_column : String
  source_module_ID_column : String
  source_workgroup_column : String
  destination_module_ID_column : String
  destination_workgroup_column : String
  unit_number_column : String
  unit_title_column : String
  strip_section_numbers : Bool

/-- ASCII lowercase of one character, the relevant fragment of the Python
str.lower used on the configuration setting strings. -/
def pyLowerChar (c : Char) : Char :=
  if 'A' ≤ c ∧ c ≤ 'Z' then Char.ofNat (c.toNat + 32) else c

/-- ASCII lowercase of a string (Python str.lower on byte strings). -/
def pyLower (s : String) : String := ⟨s.data.map pyLowerChar⟩

/-- BookmapConfiguration.__init__ (bookmap.py lines 12-32): the strip setting
string enables the flag exactly for case-insensitive "yes" or "true". The
flag is stored but never consulted by the parser (see claim C5). -/
def mkBookmapConfiguration
    (chapter_number_column chapter_title_column module_title_column
     source_module_ID_column source_workgroup_column
     destination_module_ID_column destination_workgroup_column
     unit_number_column unit_title_column strip_setting : String) :
    BookmapConfiguration :=
  { chapter_number_column := chapter_number_column
    chapter_title_column := chapter_title_column
    module_title_column := module_title_column
    source_module_ID_column := source_module_ID_column
    source_workgroup_column := source_workgroup_column
    destination_module_ID_column := destination_module_ID_column
    destination_workgroup_column := destination_workgroup_column
    unit_number_column := unit_number_column
    unit_title_column := unit_title_column
    strip_section_numbers :=
      pyLower strip_setting == "yes" || pyLower strip_setting == "true" }

/-- One iteration of Bookmap.convert (bookmap.py lines 82-102): build the
module for a row. The module title column is read directly, so its absence is
an uncaught KeyError, as is the ValueError of strip_section_numbers; the
eight safe_process_column reads leave the field at the constructor default
when the column is missing. Note that the stripping method is called
unconditionally: the configuration flag strip_section_numbers never gates it
in the source. `ctr` allocates string objects for the chapter number cell,
`oid` is the object id of the new module. -/
def convertRow (config : BookmapConfiguration) (row : Row) (ctr oid : Nat) :
    Except String (CNXModule × Nat) :=
  match rowGet row config.module_title_column with
  | none => Except.error "KeyError: module title column"
  | some titleCell =>
    match strip_section_numbers titleCell with
    | none => Except.error "ValueError: substring not found"
    | some st =>
      let cn :=
        match rowGet row config.chapter_number_column with
        | none => ((⟨0, ""⟩ : PyStr), ctr)
        | some c => mkPyStr ctr c
      Except.ok
        ({ oid := oid
           title := st.2
           section_number := st.1
           source_workspace_url := (rowGet row config.source_workgroup_column).getD ""
           source_id := (rowGet row config.source_module_ID_column).getD ""
           destination_workspace_url :=
             (rowGet row config.destination_workgroup_column).getD ""
           destination_id := (rowGet row config.destination_module_ID_column).getD ""
           chapter_title := (rowGet row config.chapter_title_column).getD ""
           chapter_number := cn.1
           unit_number := (rowGet row config.unit_number_column).getD ""
           unit_title := (rowGet row config.unit_title_column).getD ""
           valid := true }, cn.2)

/-- The module building loop of Bookmap.convert over all rows, threading the
string object allocator and the module object ids. -/
def convertModules (config : BookmapConfiguration) :
    List Row → Nat → Nat → Except String (List CNXModule × Nat × Nat)
  | [], ctr, oid => Except.ok ([], ctr, oid)
  | row :: rest, ctr, oid =>
    match convertRow config row ctr oid with
    | Except.error e => Except.error e
    | Except.ok (m, ctr2) =>
      match convertModules config rest ctr2 (oid + 1) with
      | Except.error e => Except.error e
      | Except.ok (ms, ctr3, oid3) => Except.ok (m :: ms, ctr3, oid3)

/-- Bookmap.get_chapters (bookmap.py lines 134-140): the distinct chapter
number cells in file order, keeping the first occurrence of each value. The
file is re-read for this, so every kept cell is a fresh string object; a
missing chapter number column is an uncaught KeyError. -/
def get_chaptersAux (col : String) :
    List Row → List PyStr → Nat → Except String (List PyStr × Nat)
  | [], acc, ctr => Except.ok (acc, ctr)
  | row :: rest, acc, ctr =>
    match rowGet row col with
    | none => Except.error "KeyError: chapter number column"
    | some c =>
      let (p, ctr2) := mkPyStr ctr c
      if acc.any (fun q => q.val == c) then get_chaptersAux col rest acc ctr2
      else get_chaptersAux col rest (acc ++ [p]) ctr2

def get_chapters (config : BookmapConfiguration) (rows : List Row) (ctr : Nat) :
    Except String (List PyStr × Nat) :=
  get_chaptersAux config.chapter_number_column rows [] ctr

/-- RunOptions (content-copy.py line 331): the phase flags plus the chapter
include list and the exclude list. -/
structure RunOptions where
  modules : Bool
  workgroups : Bool
  copy : Bool
  roles : Bool
  accept_roles : Bool
  collections : Bool
  units : Bool
  publish : Bool
  publish_collection : Bool
  chapters : List PyStr
  exclude : List String
  dryrun : Bool

/-- The chapter resolution of Bookmap.__init__ (bookmap.py lines 44-50): the
include list from the run options when it is non-empty (Python truthiness),
otherwise a scan of the file; then, only when an exclude list is given,
filtering by value; finally the result is written back into the run options
so that all later phases observe one consistent list. -/
def resolveChapters (config : BookmapConfiguration) (rows : List Row)
    (run_options : RunOptions) (ctr : Nat) :
    Except String (List PyStr × RunOptions × Nat) :=
  match
    (if run_options.chapters.isEmpty then get_chapters config rows ctr
     else Except.ok (run_options.chapters, ctr)) with
  | Except.error e => Except.error e
  | Except.ok (chapters, ctr2) =>
    let chapters2 :=
      if run_options.exclude.isEmpty then chapters
      else chapters.filter (fun c => !(run_options.exclude.contains c.val))
    Except.ok (chapters2, { run_options with chapters := chapters2 }, ctr2)

/-- Distinct values in order of first occurrence, accumulator style. -/
def dedupFirstAux : List String → List String → List String
  | [], acc => acc
  | c :: rest, acc =>
    if acc.contains c then dedupFirstAux rest acc
    else dedupFirstAux rest (acc ++ [c])

/-- Chapter resolution as the specification words it: the explicit include
list when non-empty, otherwise every distinct chapter number seen in file
order, then with every excluded chapter removed; stated on string values. -/
def specResolvedChapters (includeList exclude fileChapters : List String) :
    List String :=
  (if includeList.isEmpty then dedupFirstAux fileChapters [] else includeList).filter
    (fun c => !(exclude.contains c))

theorem string_beq_comm (a b : String) : (a == b) = (b == a) := by
  by_cases h : a = b
  · subst h; rfl
  · have h1 : (a == b) = false := by simpa using h
    have h2 : (b == a) = false := by simpa using fun hba => h hba.symm
    rw [h1, h2]

theorem any_val_eq_contains (acc : List PyStr) (c : String) :
    acc.any (fun q => q.val == c) = (acc.map (fun q => q.val)).contains c := by
  induction acc with
  | nil => rfl
  | cons q rest ih =>
    simp only [List.any_cons, List.map_cons, List.contains_cons, ih,
      string_beq_comm c q.val]

theorem map_val_filter_exclude (ex : List String) (l : List PyStr) :
    (l.filter (fun c => !(ex.contains c.val))).map (fun c => c.val) =
      (l.map (fun c => c.val)).filter (fun c => !(ex.contains c)) := by
  induction l with
  | nil => rfl
  | cons p rest ih =>
    by_cases h : p.val ∈ ex
    · simpa [List.filter_cons, h] using ih
    · simpa [List.filter_cons, h] using ih

theorem get_chaptersAux_spec (col : String) (rows : List Row) :
    ∀ acc ctr cs ctr2,
      get_chaptersAux col rows acc ctr = Except.ok (cs, ctr2) →
      cs.map (fun c => c.val) =
        dedupFirstAux (rows.map (fun row => (rowGet row col).getD ""))
          (acc.map (fun c => c.val)) := by
  induction rows with
  | nil =>
    intro acc ctr cs ctr2 h
    simp only [get_chaptersAux] at h
    obtain ⟨h1, -⟩ := Prod.mk.injEq .. ▸ (Except.ok.injEq _ _ ▸ h)
    simp [dedupFirstAux, ← h1]
  | cons row rest ih =>
    intro acc ctr cs ctr2 h
    simp only [get_chaptersAux] at h
    cases hc : rowGet row col with
    | none => rw [hc] at h; exact absurd h (by simp)
    | some c =>
      rw [hc] at h
      have h2 :
          (if (acc.any fun q => q.val == c) = true then
              get_chaptersAux col rest acc (mkPyStr ctr c).2
            else get_chaptersAux col rest (acc ++ [(mkPyStr ctr c).1])
              (mkPyStr ctr c).2) = Except.ok (cs, ctr2) := h
      simp only [List.map_cons, dedupFirstAux, hc, Option.getD_some]
      by_cases hmem : acc.any (fun q => q.val == c) = true
      · rw [if_pos hmem] at h2
        rw [if_pos (any_val_eq_contains acc c ▸ hmem)]
        exact ih acc _ cs ctr2 h2
      · rw [if_neg hmem] at h2
        rw [if_neg (any_val_eq_contains acc c ▸ hmem)]
        have hrec := ih (acc ++ [(mkPyStr ctr c).1]) _ cs ctr2 h2
        rw [hrec]
        have hval : (mkPyStr ctr c).1.val = c := by
          unfold mkPyStr
          by_cases hl : c.length ≤ 1 <;> simp [hl]
        simp [hval]

/-- Claim C3: whenever Bookmap construction resolves the chapter set, the
resulting values are the explicit include list when it is non-empty,
otherwise the distinct chapter numbers in file order, with every excluded
chapter then removed, order preserved from whichever source supplied it; and
the same list is written back into the run options. -/
theorem claim_C3_chapter_resolution (config : BookmapConfiguration)
    (rows : List Row) (ro : RunOptions) (ctr : Nat)
    (cs : List PyStr) (ro2 : RunOptions) (ctr2 : Nat)
    (h : resolveChapters config rows ro ctr = Except.ok (cs, ro2, ctr2)) :
    cs.map (fun c => c.val) =
      specResolvedChapters (ro.chapters.map (fun c => c.val)) ro.exclude
        (rows.map (fun row => (rowGet row config.chapter_number_column).getD "")) ∧
    ro2.chapters = cs := by
  unfold resolveChapters at h
  by_cases hinc : ro.chapters.isEmpty
  · rw [if_pos hinc] at h
    cases hg : get_chapters config rows ctr with
    | error e => rw [hg] at h; exact absurd h (by simp)
    | ok p =>
      rw [hg] at h
      simp only [Except.ok.injEq, Prod.mk.injEq] at h
      obtain ⟨h1, h2, -⟩ := h
      have hspec := get_chaptersAux_spec config.chapter_number_column rows [] ctr
        p.1 p.2 (by rw [← hg]; rfl)
      simp only [List.map_nil] at hspec
      have hmapinc : (ro.chapters.map (fun c => c.val)).isEmpty = true := by
        cases hl : ro.chapters
        · rfl
        · rw [hl] at hinc; exact absurd hinc (by simp)
      refine ⟨?_, by rw [← h2]; exact h1⟩
      unfold specResolvedChapters
      rw [if_pos hmapinc]
      by_cases hex : ro.exclude.isEmpty
      · have hexnil : ro.exclude = [] := by
          cases hl : ro.exclude
          · rfl
          · rw [hl] at hex; exact absurd hex (by simp)
        rw [if_pos hex] at h1
        subst h1
        rw [hspec, hexnil]
        simp [List.filter_eq_self]
      · rw [if_neg hex] at h1
        subst h1
        rw [map_val_filter_exclude, hspec]
  · rw [if_neg hinc] at h
    simp only [Except.ok.injEq, Prod.mk.injEq] at h
    obtain ⟨h1, h2, -⟩ := h
    have hmapinc : (ro.chapters.map (fun c => c.val)).isEmpty = false := by
      cases hl : ro.chapters
      · rw [hl] at hinc; exact absurd rfl hinc
      · rfl
    refine ⟨?_, by rw [← h2]; exact h1⟩
    unfold specResolvedChapters
    rw [hmapinc]
    simp only [Bool.false_eq_true, if_false]
    by_cases hex : ro.exclude.isEmpty
    · have hexnil : ro.exclude = [] := by
        cases hl : ro.exclude
        · rfl
        · rw [hl] at hex; exact absurd hex (by simp)
      rw [if_pos hex] at h1
      subst h1
      rw [hexnil]
      simp [List.filter_eq_self]
    · rw [if_neg hex] at h1
      subst h1
      rw [map_val_filter_exclude]

/-- Claim C3 witness: a two-row file with chapters "1" and "2", an empty
include list and exclude list ["2"]: the resolved set is ["1"]. -/
theorem claim_C3_witness :
    ([(⟨50, "1"⟩ : PyStr)].map (fun c => c.val) =
      specResolvedChapters ([] : List String) ["2"]
        ([[("CN", "1"), ("MT", "A")], [("CN", "2"), ("MT", "B")]].map
          (fun row => (rowGet row "CN").getD ""))) ∧
    ({ modules := true, workgroups := false, copy := false, roles := false,
       accept_roles := false, collections := false, units := false,
       publish := false, publish_collection := false,
       chapters := [⟨50, "1"⟩], exclude := ["2"], dryrun := false } :
         RunOptions).chapters = [⟨50, "1"⟩] :=
  claim_C3_chapter_resolution
    (mkBookmapConfiguration "CN" "CT" "MT" "SID" "SWG" "DID" "DWG" "UN" "UT" "no")
    [[("CN", "1"), ("MT", "A")], [("CN", "2"), ("MT", "B")]]
    { modules := true, workgroups := false, copy := false, roles := false,
      accept_roles := false, collections := false, units := false,
      publish := false, publish_collection := false,
      chapters := [], exclude := ["2"], dryrun := false }
    freshOidBase [⟨50, "1"⟩] _ _ rfl

/-- Claim C5: with the setting string "no" the configuration flag is false,
yet the parsed module of the row with title "3.2 Forces and Motion" has
section number "3.2" and title "Forces and Motion": Bookmap.convert calls the
stripping method unconditionally, and the flag that BookmapConfiguration
computed from the setting is never read anywhere in the source. -/
theorem claim_C5_strips_regardless :
    (mkBookmapConfiguration "CN" "CT" "MT" "SID" "SWG" "DID" "DWG" "UN" "UT"
        "no").strip_section_numbers = false ∧
    (convertRow
        (mkBookmapConfiguration "CN" "CT" "MT" "SID" "SWG" "DID" "DWG" "UN" "UT"
          "no")
        [("MT", "3.2 Forces and Motion")] freshOidBase 0).map
      (fun p => (p.1.section_number, p.1.title)) =
      Except.ok ("3.2", "Forces and Motion") := by
  exact ⟨by decide, rfl⟩

/-! ## Outcome persistence (Bookmap.save) and the save/re-parse roundtrip -/

deriving instance DecidableEq for Except

theorem mkPyStr_val (ctr : Nat) (s : String) : (mkPyStr ctr s).1.val = s := by
  unfold mkPyStr
  by_cases h : s.length ≤ 1 <;> simp [h]

/-- The module title cell written by BookmapData.output: the title prefixed
with the section number exactly when the section number is a nonempty string
(Python truthiness). -/
def titleCell (m : CNXModule) : String :=
  if m.section_number ≠ "" then m.section_number ++ " " ++ m.title else m.title

/-- BookmapData.output (bookmap.py lines 206-226): the cells of the output
row for one module, unit columns first when unit grouping is on. The source
workspace URL and the valid flag are not written. -/
def output (m : CNXModule) (units : Bool) : List String :=
  (if units then [m.unit_number, m.unit_title] else []) ++
  [m.chapter_number.val, m.chapter_title, titleCell m,
   m.source_id, m.destination_id, m.destination_workspace_url]

/-- The column header written by Bookmap.save (bookmap.py lines 174-182). -/
def saveColumns (config : BookmapConfiguration) (units : Bool) : List String :=
  (if units then [config.unit_number_column, config.unit_title_column] else []) ++
  [config.chapter_number_column, config.chapter_title_column,
   config.module_title_column, config.source_module_ID_column,
   config.destination_module_ID_column, config.destination_workgroup_column]

/-- Bookmap.save (bookmap.py lines 167-191) at the level of rows of cells:
the header row followed by one output row per module in model order. The csv
writer and reader transport cell lists faithfully (quoting is handled by the
csv library), and the error flag changes only the file name suffix, never
the content, so both save variants write these same rows. -/
def save (config : BookmapConfiguration) (modules : List CNXModule)
    (units : Bool) : List String × List (List String) :=
  (saveColumns config units, modules.map (fun m => output m units))

/-- Re-parsing a saved file: each data row is read back as the DictReader
association of the header names with the row cells, then run through
Bookmap.convert. -/
def saveReparse (config : BookmapConfiguration) (modules : List CNXModule)
    (units : Bool) (ctr oid : Nat) : Except String (List CNXModule × Nat × Nat) :=
  convertModules config
    ((save config modules units).2.map
      (fun cells => (save config modules units).1.zip cells))
    ctr oid

/-- Equality of modules up to the section number being re-merged into the
title column, the reading of claim C4: the two modules agree on the composite
title cell and on every other data field (chapter numbers by value). -/
def moduleEqModuloTitle (a b : CNXModule) : Bool :=
  titleCell a == titleCell b &&
  a.source_workspace_url == b.source_workspace_url &&
  a.source_id == b.source_id &&
  a.destination_workspace_url == b.destination_workspace_url &&
  a.destination_id == b.destination_id &&
  a.chapter_title == b.chapter_title &&
  a.chapter_number.val == b.chapter_number.val &&
  a.unit_number == b.unit_number &&
  a.unit_title == b.unit_title &&
  a.valid == b.valid

/-- The nine configured column names. -/
def configColumns (config : BookmapConfiguration) : List String :=
  [config.chapter_number_column, config.chapter_title_column,
   config.module_title_column, config.source_module_ID_column,
   config.source_workgroup_column, config.destination_module_ID_column,
   config.destination_workgroup_column, config.unit_number_column,
   config.unit_title_column]

/-- The fields of a module that the roundtrip claim compares, with the title
and section number fused into the composite title cell. -/
def modProjection (m : CNXModule) :
    String × String × String × String × String × String × String × String ×
      String × Bool :=
  (titleCell m, m.chapter_number.val, m.chapter_title, m.source_id,
   m.destination_id, m.destination_workspace_url, m.source_workspace_url,
   m.unit_number, m.unit_title, m.valid)

/-- What a saved module comes back as: every written field survives by value,
the source workspace URL is always lost, the unit fields survive only when
the unit columns were written, and the valid flag is reset by the parser. -/
def expectedRoundTrip (m : CNXModule) (units : Bool) :
    String × String × String × String × String × String × String × String ×
      String × Bool :=
  (titleCell m, m.chapter_number.val, m.chapter_title, m.source_id,
   m.destination_id, m.destination_workspace_url, "",
   if units then m.unit_number else "", if units then m.unit_title else "",
   true)

theorem rowGet_cons_self (k v : String) (rest : Row) :
    rowGet ((k, v) :: rest) k = some v := by
  unfold rowGet
  rw [List.find?_cons_of_pos _ (by simp)]
  rfl

theorem rowGet_cons_ne (k col v : String) (rest : Row) (h : k ≠ col) :
    rowGet ((k, v) :: rest) col = rowGet rest col := by
  unfold rowGet
  rw [List.find?_cons_of_neg _ (by simp [h])]

theorem rowGet_nil (col : String) : rowGet [] col = none := rfl

theorem strip_nondigit (c : String) (h : startsWithDigit c = false) :
    strip_section_numbers c = some ("", c) := by
  unfold strip_section_numbers
  rw [h]

theorem strip_isSome_of_ok (c : String)
    (h : ¬(startsWithDigit c = true ∧ hasSpace c = false)) :
    (strip_section_numbers c).isSome = true := by
  cases hd : startsWithDigit c
  · rw [strip_nondigit c hd]; rfl
  · have hs : hasSpace c = true := by
      cases hsp : hasSpace c
      · exact absurd ⟨hd, hsp⟩ h
      · rfl
    unfold strip_section_numbers
    rw [hd]
    cases hfs : firstSpace c.data with
    | none =>
      have := firstSpace_isSome_of_hasSpace c hs
      rw [hfs] at this
      exact absurd this (by simp)
    | some i => rfl

/-- A successful split recomposes to the original title cell. -/
theorem strip_recompose (c n r : String)
    (h : strip_section_numbers c = some (n, r)) :
    (if n ≠ "" then n ++ " " ++ r else r) = c := by
  cases hd : startsWithDigit c
  · rw [strip_nondigit c hd] at h
    simp only [Option.some.injEq, Prod.mk.injEq] at h
    obtain ⟨h1, h2⟩ := h
    subst h1; subst h2
    simp
  · obtain ⟨-, hne, heq⟩ := strip_split_characterization c n r hd h
    rw [if_pos hne]
    exact heq.symm

/-- Re-parsing the saved output row of one module: the parse succeeds (given
the no-crash condition on the title cell) and reproduces exactly the fields
of `expectedRoundTrip`. -/
theorem convertRow_of_output (config : BookmapConfiguration) (m : CNXModule)
    (units : Bool) (ctr oid : Nat)
    (hnodup : (configColumns config).Nodup)
    (hok : ¬(startsWithDigit (titleCell m) = true ∧ hasSpace (titleCell m) = false)) :
    ∃ m2 ctr2,
      convertRow config ((saveColumns config units).zip (output m units)) ctr oid =
        Except.ok (m2, ctr2) ∧ modProjection m2 = expectedRoundTrip m units := by
  have hpair : (configColumns config).Pairwise (fun a b => a ≠ b) := hnodup
  unfold configColumns at hpair
  obtain ⟨hcn, hpair⟩ := List.pairwise_cons.mp hpair
  obtain ⟨hct, hpair⟩ := List.pairwise_cons.mp hpair
  obtain ⟨hmt, hpair⟩ := List.pairwise_cons.mp hpair
  obtain ⟨hsid, hpair⟩ := List.pairwise_cons.mp hpair
  obtain ⟨hswg, hpair⟩ := List.pairwise_cons.mp hpair
  obtain ⟨hdid, hpair⟩ := List.pairwise_cons.mp hpair
  obtain ⟨hdwg, hpair⟩ := List.pairwise_cons.mp hpair
  obtain ⟨hun, -⟩ := List.pairwise_cons.mp hpair
  have q12 := hcn _ (by simp : config.chapter_title_column ∈ _)
  have q13 := hcn _ (by simp : config.module_title_column ∈ _)
  have q14 := hcn _ (by simp : config.source_module_ID_column ∈ _)
  have q15 := hcn _ (by simp : config.source_workgroup_column ∈ _)
  have q16 := hcn _ (by simp : config.destination_module_ID_column ∈ _)
  have q17 := hcn _ (by simp : config.destination_workgroup_column ∈ _)
  have q18 := hcn _ (by simp : config.unit_number_column ∈ _)
  have q19 := hcn _ (by simp : config.unit_title_column ∈ _)
  have q23 := hct _ (by simp : config.module_title_column ∈ _)
  have q24 := hct _ (by simp : config.source_module_ID_column ∈ _)
  have q25 := hct _ (by simp : config.source_workgroup_column ∈ _)
  have q26 := hct _ (by simp : config.destination_module_ID_column ∈ _)
  have q27 := hct _ (by simp : config.destination_workgroup_column ∈ _)
  have q28 := hct _ (by simp : config.unit_number_column ∈ _)
  have q29 := hct _ (by simp : config.unit_title_column ∈ _)
  have q34 := hmt _ (by simp : config.source_module_ID_column ∈ _)
  have q35 := hmt _ (by simp : config.source_workgroup_column ∈ _)
  have q36 := hmt _ (by simp : config.destination_module_ID_column ∈ _)
  have q37 := hmt _ (by simp : config.destination_workgroup_column ∈ _)
  have q38 := hmt _ (by simp : config.unit_number_column ∈ _)
  have q39 := hmt _ (by simp : config.unit_title_column ∈ _)
  have q45 := hsid _ (by simp : config.source_workgroup_column ∈ _)
  have q46 := hsid _ (by simp : config.destination_module_ID_column ∈ _)
  have q47 := hsid _ (by simp : config.destination_workgroup_column ∈ _)
  have q48 := hsid _ (by simp : config.unit_number_column ∈ _)
  have q49 := hsid _ (by simp : config.unit_title_column ∈ _)
  have q56 := hswg _ (by simp : config.destination_module_ID_column ∈ _)
  have q57 := hswg _ (by simp : config.destination_workgroup_column ∈ _)
  have q58 := hswg _ (by simp : config.unit_number_column ∈ _)
  have q59 := hswg _ (by simp : config.unit_title_column ∈ _)
  have q67 := hdid _ (by simp : config.destination_workgroup_column ∈ _)
  have q68 := hdid _ (by simp : config.unit_number_column ∈ _)
  have q69 := hdid _ (by simp : config.unit_title_column ∈ _)
  have q78 := hdwg _ (by simp : config.unit_number_column ∈ _)
  have q79 := hdwg _ (by simp : config.unit_title_column ∈ _)
  have q89 := hun _ (by simp : config.unit_title_column ∈ _)
  obtain ⟨⟨n, r⟩, hsplit⟩ : ∃ p, strip_section_numbers (titleCell m) = some p :=
    Option.isSome_iff_exists.mp (strip_isSome_of_ok _ hok)
  have hrec := strip_recompose (titleCell m) n r hsplit
  cases units with
  | false =>
    have hrow : (saveColumns config false).zip (output m false) =
        [(config.chapter_number_column, m.chapter_number.val),
         (config.chapter_title_column, m.chapter_title),
         (config.module_title_column, titleCell m),
         (config.source_module_ID_column, m.source_id),
         (config.destination_module_ID_column, m.destination_id),
         (config.destination_workgroup_column, m.destination_workspace_url)] := by
      simp [saveColumns, output]
    have heq : convertRow config ((saveColumns config false).zip (output m false))
        ctr oid =
        Except.ok
          ({ oid := oid, title := r, section_number := n,
             source_workspace_url := "", source_id := m.source_id,
             destination_workspace_url := m.destination_workspace_url,
             destination_id := m.destination_id,
             chapter_title := m.chapter_title,
             chapter_number := (mkPyStr ctr m.chapter_number.val).1,
             unit_number := "", unit_title := "", valid := true },
           (mkPyStr ctr m.chapter_number.val).2) := by
      unfold convertRow
      simp only [hrow, rowGet_cons_self, rowGet_nil,
        rowGet_cons_ne _ _ _ _ q12, rowGet_cons_ne _ _ _ _ q13,
        rowGet_cons_ne _ _ _ _ q14, rowGet_cons_ne _ _ _ _ q15,
        rowGet_cons_ne _ _ _ _ q16, rowGet_cons_ne _ _ _ _ q17,
        rowGet_cons_ne _ _ _ _ q18, rowGet_cons_ne _ _ _ _ q19,
        rowGet_cons_ne _ _ _ _ q23, rowGet_cons_ne _ _ _ _ q24,
        rowGet_cons_ne _ _ _ _ q25, rowGet_cons_ne _ _ _ _ q26,
        rowGet_cons_ne _ _ _ _ q27, rowGet_cons_ne _ _ _ _ q28,
        rowGet_cons_ne _ _ _ _ q29, rowGet_cons_ne _ _ _ _ q34,
        rowGet_cons_ne _ _ _ _ q35, rowGet_cons_ne _ _ _ _ q36,
        rowGet_cons_ne _ _ _ _ q37, rowGet_cons_ne _ _ _ _ q38,
        rowGet_cons_ne _ _ _ _ q39, rowGet_cons_ne _ _ _ _ q45,
        rowGet_cons_ne _ _ _ _ q46, rowGet_cons_ne _ _ _ _ q47,
        rowGet_cons_ne _ _ _ _ q48, rowGet_cons_ne _ _ _ _ q49,
        rowGet_cons_ne _ _ _ _ q56.symm, rowGet_cons_ne _ _ _ _ q57.symm,
        rowGet_cons_ne _ _ _ _ q67, rowGet_cons_ne _ _ _ _ q68,
        rowGet_cons_ne _ _ _ _ q69, rowGet_cons_ne _ _ _ _ q78,
        rowGet_cons_ne _ _ _ _ q79, hsplit, Option.getD_some, Option.getD_none]
    refine ⟨_, _, heq, ?_⟩
    simp [modProjection, expectedRoundTrip, titleCell, mkPyStr_val, hrec]
  | true =>
    have hrow : (saveColumns config true).zip (output m true) =
        [(config.unit_number_column, m.unit_number),
         (config.unit_title_column, m.unit_title),
         (config.chapter_number_column, m.chapter_number.val),
         (config.chapter_title_column, m.chapter_title),
         (config.module_title_column, titleCell m),
         (config.source_module_ID_column, m.source_id),
         (config.destination_module_ID_column, m.destination_id),
         (config.destination_workgroup_column, m.destination_workspace_url)] := by
      simp [saveColumns, output]
    have heq : convertRow config ((saveColumns config true).zip (output m true))
        ctr oid =
        Except.ok
          ({ oid := oid, title := r, section_number := n,
             source_workspace_url := "", source_id := m.source_id,
             destination_workspace_url := m.destination_workspace_url,
             destination_id := m.destination_id,
             chapter_title := m.chapter_title,
             chapter_number := (mkPyStr ctr m.chapter_number.val).1,
             unit_number := m.unit_number, unit_title := m.unit_title,
             valid := true },
           (mkPyStr ctr m.chapter_number.val).2) := by
      unfold convertRow
      simp only [hrow, rowGet_cons_self, rowGet_nil,
        rowGet_cons_ne _ _ _ _ q12, rowGet_cons_ne _ _ _ _ q13,
        rowGet_cons_ne _ _ _ _ q14, rowGet_cons_ne _ _ _ _ q15,
        rowGet_cons_ne _ _ _ _ q16, rowGet_cons_ne _ _ _ _ q17,
        rowGet_cons_ne _ _ _ _ q23, rowGet_cons_ne _ _ _ _ q24,
        rowGet_cons_ne _ _ _ _ q25, rowGet_cons_ne _ _ _ _ q26,
        rowGet_cons_ne _ _ _ _ q27, rowGet_cons_ne _ _ _ _ q34,
        rowGet_cons_ne _ _ _ _ q35, rowGet_cons_ne _ _ _ _ q36,
        rowGet_cons_ne _ _ _ _ q37, rowGet_cons_ne _ _ _ _ q45,
        rowGet_cons_ne _ _ _ _ q46, rowGet_cons_ne _ _ _ _ q47,
        rowGet_cons_ne _ _ _ _ q56.symm, rowGet_cons_ne _ _ _ _ q57.symm,
        rowGet_cons_ne _ _ _ _ q67,
        rowGet_cons_ne _ _ _ _ q18.symm, rowGet_cons_ne _ _ _ _ q19.symm,
        rowGet_cons_ne _ _ _ _ q28.symm, rowGet_cons_ne _ _ _ _ q29.symm,
        rowGet_cons_ne _ _ _ _ q38.symm, rowGet_cons_ne _ _ _ _ q39.symm,
        rowGet_cons_ne _ _ _ _ q48.symm, rowGet_cons_ne _ _ _ _ q49.symm,
        rowGet_cons_ne _ _ _ _ q58.symm, rowGet_cons_ne _ _ _ _ q59.symm,
        rowGet_cons_ne _ _ _ _ q68.symm, rowGet_cons_ne _ _ _ _ q69.symm,
        rowGet_cons_ne _ _ _ _ q78.symm, rowGet_cons_ne _ _ _ _ q79.symm,
        rowGet_cons_ne _ _ _ _ q89, hsplit, Option.getD_some, Option.getD_none]
    refine ⟨_, _, heq, ?_⟩
    simp [modProjection, expectedRoundTrip, titleCell, mkPyStr_val, hrec]

/-- Re-parsing all saved output rows reproduces the per-module projections. -/
theorem convertModules_outputs (config : BookmapConfiguration) (units : Bool)
    (hnodup : (configColumns config).Nodup) :
    ∀ (ms : List CNXModule) (ctr oid : Nat),
      (∀ m ∈ ms,
        ¬(startsWithDigit (titleCell m) = true ∧ hasSpace (titleCell m) = false)) →
      (convertModules config
          (ms.map (fun m => (saveColumns config units).zip (output m units)))
          ctr oid).map (fun p => p.1.map modProjection) =
        Except.ok (ms.map (fun m => expectedRoundTrip m units)) := by
  intro ms
  induction ms with
  | nil => intro ctr oid _; rfl
  | cons m rest ih =>
    intro ctr oid hok
    obtain ⟨m2, ctr2, hconv, hproj⟩ :=
      convertRow_of_output config m units ctr oid hnodup (hok m (by simp))
    have hrest := ih ctr2 (oid + 1) (fun x hx => hok x (by simp [hx]))
    simp only [List.map_cons, convertModules, hconv]
    cases hrec : convertModules config
        (rest.map (fun x => (saveColumns config units).zip (output x units)))
        ctr2 (oid + 1) with
    | error e =>
      rw [hrec] at hrest
      exact absurd hrest (by simp [Except.map])
    | ok q =>
      rw [hrec] at hrest
      obtain ⟨qs, qctr, qoid⟩ := q
      simp only [Except.map] at hrest ⊢
      simp only [Except.ok.injEq] at hrest
      simp [List.map_cons, hproj, hrest]

/-- Claim C4 counterexample: a module whose source workspace URL is nonempty.
Saving and re-parsing with the same configuration loses the field (it is
never written to the file), so the re-parsed module set differs from the
original even modulo re-merging the section number into the title column. -/
theorem claim_C4_counterexample :
    (saveReparse
        (mkBookmapConfiguration "CN" "CT" "MT" "SID" "SWG" "DID" "DWG" "UN" "UT"
          "yes")
        [{ CNXModule.make 0 "Introduction" "" with
            source_workspace_url := "http://legacy/workspace" }] false
        freshOidBase 100).map
      (fun p => p.1.map (fun m2 =>
        (moduleEqModuloTitle m2
          { CNXModule.make 0 "Introduction" "" with
              source_workspace_url := "http://legacy/workspace" },
         m2.source_workspace_url))) =
      Except.ok [(false, "")] ∧
    ({ CNXModule.make 0 "Introduction" "" with
        source_workspace_url := "http://legacy/workspace" } :
          CNXModule).source_workspace_url = "http://legacy/workspace" := by
  exact ⟨by decide, rfl⟩

/-- Claim C4 (amended): with pairwise distinct configured column names and no
module whose composite title cell begins with a digit yet contains no space
(that case crashes the re-parse), saving a Bookmap in either variant (the
error flag changes only the file name) and re-parsing with the same column
configuration reproduces the modules in order and count, preserving the
composite title cell (the section number re-merged into the title column),
the chapter number value, the chapter title, the source and destination ids
and the destination workspace URL, and, exactly when unit grouping was on,
the unit number and unit title; the source workspace URL always returns
empty (it is never serialized), the unit fields return empty when unit
grouping was off, and the valid flag is reset to true. -/
theorem claim_C4_roundtrip (config : BookmapConfiguration)
    (modules : List CNXModule) (units : Bool) (ctr oid : Nat)
    (hnodup : (configColumns config).Nodup)
    (hok : ∀ m ∈ modules,
      ¬(startsWithDigit (titleCell m) = true ∧ hasSpace (titleCell m) = false)) :
    (saveReparse config modules units ctr oid).map
        (fun p => p.1.map modProjection) =
      Except.ok (modules.map (fun m => expectedRoundTrip m units)) := by
  unfold saveReparse save
  rw [List.map_map]
  exact convertModules_outputs config units hnodup modules ctr oid hok

/-- Claim C4 witness: a concrete one-module bookmap with distinct column
names and a well-formed title, saved with unit grouping on, re-parses to the
expected projection. -/
theorem claim_C4_witness :
    (saveReparse
        (mkBookmapConfiguration "CN" "CT" "MT" "SID" "SWG" "DID" "DWG" "UN" "UT"
          "yes")
        [{ CNXModule.make 7 "Forces and Motion" "3.2" with
            chapter_number := ⟨50, "2"⟩, chapter_title := "Dynamics",
            source_id := "m111", destination_id := "m222",
            destination_workspace_url := "http://dest/wg",
            unit_number := "1", unit_title := "Mechanics" }] true
        freshOidBase 0).map (fun p => p.1.map modProjection) =
      Except.ok
        [expectedRoundTrip
          { CNXModule.make 7 "Forces and Motion" "3.2" with
              chapter_number := ⟨50, "2"⟩, chapter_title := "Dynamics",
              source_id := "m111", destination_id := "m222",
              destination_workspace_url := "http://dest/wg",
              unit_number := "1", unit_title := "Mechanics" } true] :=
  claim_C4_roundtrip _ _ true freshOidBase 0 (by decide) (by decide)

/-! ## Entity model and migration orchestrator (content-copy.py) -/

/-- Workgroup (bookmap.py lines 288-297). `oid` is the object id (list
removal and dictionary values work with object references); `modules` holds
the object ids of the member modules in placement order. -/
structure Workgroup where
  oid : Nat
  title : String
  chapter_title : String
  id : String
  url : String
  modules : List Nat
  chapter_number : PyStr
  unit_number : String
  deriving DecidableEq

/-- The mutable state the orchestrator phases share: the active chapter list
(bookmap.chapters, aliased by run_options.chapters), the workgroup objects
ever created, the workgroup list bookmap.bookmap.workgroups (object ids, so
that removal and aliasing behave like Python), the module list and the
failure list. -/
structure PhaseState where
  chapters : List PyStr
  allWorkgroups : List Workgroup
  workgroupList : List Nat
  modules : List CNXModule
  failures : List (String × String)
  deriving DecidableEq

/-- Python list.remove on a list of strings: drop the first element equal by
value; on a value not present the source would raise ValueError, which is
unreachable in the states the orchestrator produces, so it is the identity
here. -/
def removeFirstVal : List PyStr → String → List PyStr
  | [], _ => []
  | c :: rest, v => if c.val == v then rest else c :: removeFirstVal rest v

/-- Python list.remove on a list of objects (equality is identity): drop the
first occurrence of the object id. -/
def removeFirstOid : List Nat → Nat → List Nat
  | [], _ => []
  | x :: rest, y => if x == y then rest else x :: removeFirstOid rest y

/-- Resolve a workgroup object id in the object store. -/
def findWg (ws : List Workgroup) (x : Nat) : Option Workgroup :=
  ws.find? (fun w => w.oid == x)

/-- Mutate the workgroup object with the given id in place. -/
def updateWg (ws : List Workgroup) (x : Nat) (f : Workgroup → Workgroup) :
    List Workgroup :=
  ws.map (fun w => if w.oid == x then f w else w)

/-- Python dict assignment `d[k] = v` for the chapter_to_workgroup map. -/
def dictInsert (d : List (String × Nat)) (k : String) (v : Nat) :
    List (String × Nat) :=
  if d.any (fun p => p.1 == k) then
    d.map (fun p => if p.1 == k then (k, v) else p)
  else d ++ [(k, v)]

/-- Python dict lookup; `none` is the KeyError case. -/
def dictFind (d : List (String × Nat)) (k : String) : Option Nat :=
  (d.find? (fun p => p.1 == k)).map (fun p => p.2)

/-- The module walk in the workgroup failure handler (content-copy.py lines
132-134): every module whose chapter number is the same string OBJECT as the
workgroup chapter number (the Python is operator on line 133) is marked
invalid. -/
def invalidateChapterModules (wgch : PyStr) (ms : List CNXModule) :
    List CNXModule :=
  ms.map (fun m =>
    if py_is m.chapter_number wgch then { m with valid := false } else m)

/-- The failure records appended by the same walk (content-copy.py line 135),
in module order, with the leading space of " creating placeholder" as in the
source. -/
def invalidationFailures (wgch : PyStr) (ms : List CNXModule) :
    List (String × String) :=
  (ms.filter (fun m => py_is m.chapter_number wgch)).map
    (fun m => (m.full_title, " creating placeholder"))

/-- Result of the workgroup creation loop: the mutated state, the
chapter_to_workgroup dictionary, and the trace of workgroups for which a
remote create-workgroup call was actually issued, in order. -/
structure WgLoopResult where
  st : PhaseState
  chapter_to_workgroup : List (String × Nat)
  attempted : List Nat
  deriving DecidableEq

/-- The workgroup creation loop of create_placeholders (content-copy.py
lines 117-136) under the CPython for-statement semantics: the index i
advances by one per iteration and is compared against the CURRENT length of
bookmap.bookmap.workgroups, which the failure branch mutates (lines 130-131
remove the chapter and the workgroup itself). On failure the modules of the
chapter are invalidated through the object identity test of line 133 and the
failure records are appended; line 136 then stores the workgroup in
chapter_to_workgroup whether or not the call failed. wgFails is the outcome
oracle of the remote call. The fuel is the initial list length, an upper
bound on the number of iterations since i grows by one each time and the
list never grows. -/
def wgLoopAux (wgFails : Nat → Bool) :
    Nat → Nat → PhaseState → List (String × Nat) → List Nat → WgLoopResult
  | 0, _, st, c2w, attempted => ⟨st, c2w, attempted⟩
  | fuel + 1, i, st, c2w, attempted =>
    if h : i < st.workgroupList.length then
      match findWg st.allWorkgroups (st.workgroupList.get ⟨i, h⟩) with
      | none => ⟨st, c2w, attempted⟩
      | some wg =>
        let attempted2 := attempted ++ [wg.oid]
        if wgFails wg.oid then
          let st2 : PhaseState :=
            { st with
              chapters := removeFirstVal st.chapters wg.chapter_number.val
              workgroupList := removeFirstOid st.workgroupList wg.oid
              modules := invalidateChapterModules wg.chapter_number st.modules
              failures := st.failures ++
                invalidationFailures wg.chapter_number st.modules }
          wgLoopAux wgFails fuel (i + 1) st2
            (dictInsert c2w wg.chapter_number.val wg.oid) attempted2
        else
          wgLoopAux wgFails fuel (i + 1) st
            (dictInsert c2w wg.chapter_number.val wg.oid) attempted2
    else ⟨st, c2w, attempted⟩

/-- The workgroup phase entered when run_options.workgroups is set. -/
def wgPhase (wgFails : Nat → Bool) (st : PhaseState) : WgLoopResult :=
  wgLoopAux wgFails st.workgroupList.length 0 st [] []

/-- Result of the module creation loop: crashed records an uncaught KeyError
(content-copy.py line 143, when a chapter has no entry in
chapter_to_workgroup), which aborts create_placeholders and with it the
whole run body; trace records every successful placement into a workgroup as
(module oid, workgroup oid, module unit number), in order. -/
structure ModuleLoopResult where
  crashed : Bool
  st : PhaseState
  trace : List (Nat × Nat × String)
  deriving DecidableEq

/-- The module creation loop of create_placeholders (content-copy.py lines
138-157): for every module, in list order, that is still valid and whose
chapter number is in the active chapter list by VALUE (line 140), the
workgroup url is looked up when workgroups are enabled (line 143, an
uncaught KeyError when absent), the remote create-and-publish call is
issued (modFails oracle); on failure the module is invalidated and a
failure record appended (lines 156-157); on success with workgroups enabled
the module is appended to its workgroup and the workgroup unit number is
OVERWRITTEN with the module unit number (lines 149-150). The module list
itself is never structurally mutated, so the fuel is its (constant)
length. -/
def moduleLoopAux (workgroups : Bool) (modFails : Nat → Bool)
    (c2w : List (String × Nat)) :
    Nat → Nat → PhaseState → List (Nat × Nat × String) → ModuleLoopResult
  | 0, _, st, trace => ⟨false, st, trace⟩
  | fuel + 1, i, st, trace =>
    if h : i < st.modules.length then
      let m := st.modules.get ⟨i, h⟩
      if m.valid && st.chapters.any (fun c => c.val == m.chapter_number.val) then
        if workgroups && (dictFind c2w m.chapter_number.val).isNone then
          ⟨true, st, trace⟩
        else
          if modFails m.oid then
            let st2 : PhaseState :=
              { st with
                modules := st.modules.set i { m with valid := false }
                failures := st.failures ++ [(m.full_title, " creating placeholder")] }
            moduleLoopAux workgroups modFails c2w fuel (i + 1) st2 trace
          else
            if workgroups then
              match dictFind c2w m.chapter_number.val with
              | some wgOid =>
                let st2 : PhaseState :=
                  { st with
                    allWorkgroups := updateWg st.allWorkgroups wgOid
                      (fun w =>
                        { w with modules := w.modules ++ [m.oid],
                                 unit_number := m.unit_number }) }
                moduleLoopAux workgroups modFails c2w fuel (i + 1) st2
                  (trace ++ [(m.oid, wgOid, m.unit_number)])
              | none => ⟨true, st, trace⟩
            else moduleLoopAux workgroups modFails c2w fuel (i + 1) st trace
      else moduleLoopAux workgroups modFails c2w fuel (i + 1) st trace
    else ⟨false, st, trace⟩

/-- The module phase of create_placeholders. -/
def modulePhase (workgroups : Bool) (modFails : Nat → Bool)
    (c2w : List (String × Nat)) (st : PhaseState) : ModuleLoopResult :=
  moduleLoopAux workgroups modFails c2w st.modules.length 0 st []

/-- create_placeholders (content-copy.py lines 102-157): the workgroup loop
when workgroups are enabled (with an empty chapter_to_workgroup dictionary
otherwise), then the module loop. -/
def create_placeholders (workgroups : Bool) (wgFails modFails : Nat → Bool)
    (st : PhaseState) : ModuleLoopResult :=
  if workgroups then
    let r := wgPhase wgFails st
    modulePhase workgroups modFails r.chapter_to_workgroup r.st
  else modulePhase workgroups modFails [] st

/-- Modelled from the spec: the content copy stage lives in
lib/operation_objects.py, a file that is not part of src/. Spec section 4.2
stage 2 has the copier process the valid modules of the active chapter set
and report failures into the shared failure list, and spec section 3 has
valid set false the moment any operation against the module fails and never
set back to true. copyFails is the per-module outcome oracle. -/
def copyPhase (copyFails : Nat → Bool) (st : PhaseState) : PhaseState :=
  { st with
    modules := st.modules.map (fun m =>
      if m.valid && st.chapters.any (fun c => c.val == m.chapter_number.val) &&
          copyFails m.oid then
        { m with valid := false }
      else m)
    failures := st.failures ++
      (st.modules.filter (fun m =>
        m.valid && st.chapters.any (fun c => c.val == m.chapter_number.val) &&
          copyFails m.oid)).map (fun m => (m.full_title, "copying module")) }

/-- publish_modules_post_copy (content-copy.py lines 234-262): for every
valid module whose chapter number is in run_options.chapters (the very list
object aliased to bookmap.chapters, and copier.copy_map aliases the bookmap
itself), outside dry runs, publish; on failure mark the module invalid and
record (full title, "publishing module"). -/
def publish_modules_post_copy (dryrun : Bool) (pubFails : Nat → Bool)
    (st : PhaseState) : PhaseState :=
  if dryrun then st
  else
    { st with
      modules := st.modules.map (fun m =>
        if m.valid && st.chapters.any (fun c => c.val == m.chapter_number.val) &&
            pubFails m.oid then
          { m with valid := false }
        else m)
      failures := st.failures ++
        (st.modules.filter (fun m =>
          m.valid && st.chapters.any (fun c => c.val == m.chapter_number.val) &&
            pubFails m.oid)).map (fun m => (m.full_title, "publishing module")) }

/-- Result of the run body. -/
structure RunResult where
  crashed : Bool
  st : PhaseState
  deriving DecidableEq

/-- The module-state portion of the run body (content-copy.py lines 72-98):
placeholder creation when modules or workgroups are requested, then content
copy (spec-modelled), then the collection stage (which reads but never
writes module fields) and role acceptance (which does not touch modules),
then post-copy publishing. An uncaught KeyError in placeholder creation
escapes the run body (the except on line 91 catches only CCTError), so no
later phase runs. -/
def runPhases (createPh workgroups copyFlag publishFlag dryrun : Bool)
    (wgFails modFails copyFails pubFails : Nat → Bool) (st : PhaseState) :
    RunResult :=
  let r := if createPh then create_placeholders workgroups wgFails modFails st
           else ⟨false, st, []⟩
  if r.crashed then ⟨true, r.st⟩
  else
    let st2 := if copyFlag then copyPhase copyFails r.st else r.st
    let st3 := if publishFlag then publish_modules_post_copy dryrun pubFails st2
               else st2
    ⟨false, st3⟩

/-! ## Bookmap construction (Bookmap.__init__ and convert) -/

/-- Bookmap.get_chapter_number_and_title (bookmap.py lines 160-165): the
first raw row whose chapter number cell equals the requested chapter number
by value gives "number title"; a single space when no row matches; a missing
column is a KeyError. -/
def get_chapter_number_and_title (config : BookmapConfiguration) :
    List Row → String → Except String String
  | [], _ => Except.ok " "
  | row :: rest, chapter_num =>
    match rowGet row config.chapter_number_column with
    | none => Except.error "KeyError: chapter number column"
    | some c =>
      if c == chapter_num then
        match rowGet row config.chapter_title_column with
        | none => Except.error "KeyError: chapter title column"
        | some t => Except.ok (c ++ " " ++ t)
      else get_chapter_number_and_title config rest chapter_num

/-- The substring after the first space, mirroring the Python expression
that splits on the first space and takes element 1 (bookmap.py line 106);
an IndexError when the string contains no space (unreachable here, since
get_chapter_number_and_title always returns a string with a space). -/
def afterFirstSpace (s : String) : Except String String :=
  match firstSpace s.data with
  | none => Except.error "IndexError: list index out of range"
  | some i => Except.ok ⟨s.data.drop (i + 1)⟩

/-- The workgroup synthesis of Bookmap.convert (bookmap.py lines 103-109):
one workgroup per resolved chapter, titled booktitle - number title, and,
crucially, holding the SAME chapter number string object as the chapters
list entry. Workgroup object ids count up from the given base. -/
def synthWorkgroups (booktitle : String) (config : BookmapConfiguration)
    (raws : List Row) : List PyStr → Nat → Except String (List Workgroup)
  | [], _ => Except.ok []
  | chapter :: rest, oid =>
    match get_chapter_number_and_title config raws chapter.val with
    | Except.error e => Except.error e
    | Except.ok cnat =>
      match afterFirstSpace cnat with
      | Except.error e => Except.error e
      | Except.ok chapter_title =>
        match synthWorkgroups booktitle config raws rest (oid + 1) with
        | Except.error e => Except.error e
        | Except.ok wgs =>
          Except.ok
            ({ oid := oid
               title := booktitle ++ " - " ++ cnat
               chapter_title := chapter_title
               id := ""
               url := ""
               modules := []
               chapter_number := chapter
               unit_number := "" } :: wgs)

/-- Bookmap.__init__ (bookmap.py lines 37-52) at the level the claims need:
resolve the chapter set (writing it back into the run options), then parse
the module rows (a separate pass over the file, so each parsed string is a
fresh object, interning aside), then, when workgroups are requested,
synthesize one workgroup per resolved chapter. Workgroup object ids start at
1000000, below the fresh string id range. -/
def bookmapInit (booktitle : String) (config : BookmapConfiguration)
    (run_options : RunOptions) (rows : List Row) :
    Except String (PhaseState × RunOptions) :=
  match resolveChapters config rows run_options freshOidBase with
  | Except.error e => Except.error e
  | Except.ok (chapters, ro2, ctr1) =>
    match convertModules config rows ctr1 0 with
    | Except.error e => Except.error e
    | Except.ok (ms, _, _) =>
      match
        (if run_options.workgroups then
          synthWorkgroups booktitle config rows chapters 1000000
        else Except.ok []) with
      | Except.error e => Except.error e
      | Except.ok wgs =>
        Except.ok
          ({ chapters := chapters
             allWorkgroups := wgs
             workgroupList := wgs.map (fun w => w.oid)
             modules := ms
             failures := [] }, ro2)

/-! ## Claims C1 and C2: the placeholder creation workgroup loop -/

/-- A two-workgroup bookmap state: chapters "1" and "2", one workgroup each
(object ids 11 and 12), no modules. -/
def stC1 : PhaseState :=
  { chapters := [⟨50, "1"⟩, ⟨51, "2"⟩]
    allWorkgroups :=
      [{ oid := 11, title := "B - 1 One", chapter_title := "One", id := "",
         url := "", modules := [], chapter_number := ⟨50, "1"⟩,
         unit_number := "" },
       { oid := 12, title := "B - 2 Two", chapter_title := "Two", id := "",
         url := "", modules := [], chapter_number := ⟨51, "2"⟩,
         unit_number := "" }]
    workgroupList := [11, 12]
    modules := []
    failures := [] }

/-- Claim C1: in a run with two workgroups where the remote call for the
first one fails, the loop issues a create-workgroup call only for the first
workgroup (attempted = [11]): the failure handler removes the failed
workgroup from the very list being iterated, so the index-based iteration
skips the sibling workgroup 12, which stays in the list without ever being
attempted — against the claim that every workgroup present at the start of
the phase is attempted exactly once even after an earlier failure. -/
theorem claim_C1_sibling_skipped :
    (wgPhase (fun oid => oid == 11) stC1).attempted = [11] ∧
    (wgPhase (fun oid => oid == 11) stC1).st.workgroupList = [12] ∧
    (wgPhase (fun oid => oid == 11) stC1).st.chapters = [⟨51, "2"⟩] := by
  exact ⟨rfl, rfl, rfl⟩

/-- The column configuration and run options used for claim C2. -/
def cfgC2 : BookmapConfiguration :=
  mkBookmapConfiguration "CN" "CT" "MT" "SID" "SWG" "DID" "DWG" "UN" "UT" "no"

def roC2 : RunOptions :=
  { modules := true, workgroups := true, copy := false, roles := false,
    accept_roles := false, collections := false, units := false,
    publish := false, publish_collection := false, chapters := [],
    exclude := [], dryrun := false }

/-- Claim C2: parse a one-row manifest whose chapter number is the two
character string "10" and let the workgroup creation fail. The chapter is
removed from the active set and the workgroup from the workgroup list, but
the module of chapter "10" KEEPS valid = true and NO failure record is
appended: line 133 compares the chapter numbers with the Python is operator,
and the module and workgroup hold distinct "10" objects because they come
from different parsing passes over the file (CPython interns only strings of
length at most one). The second conjunct shows the same run on chapter "2",
where interning makes the two objects coincide and the cascade fires as the
claim expects — which is why the bug is invisible on one-digit chapters. -/
theorem claim_C2_cascade_missed :
    ((bookmapInit "Book" cfgC2 roC2
        [[("CN", "10"), ("CT", "Ten"), ("MT", "Momentum")]]).map (fun p =>
      let r := wgPhase (fun _ => true) p.1
      (r.st.modules.map (fun m => (m.valid, m.chapter_number.val)),
       r.st.failures, r.st.chapters, r.st.workgroupList, r.attempted)) =
      Except.ok ([(true, "10")], [], [], [], [1000000])) ∧
    ((bookmapInit "Book" cfgC2 roC2
        [[("CN", "2"), ("CT", "Two"), ("MT", "Momentum")]]).map (fun p =>
      let r := wgPhase (fun _ => true) p.1
      (r.st.modules.map (fun m => (m.valid, m.chapter_number.val)),
       r.st.failures, r.st.chapters, r.st.workgroupList)) =
      Except.ok ([(false, "2")], [("Momentum", " creating placeholder")],
        [], [])) := by
  exact ⟨rfl, rfl⟩

/-! ## Claim C9: the workgroup unit number -/

/-- Replay of the successful-placement trace on one workgroup object: each
entry naming the workgroup appends its module and overwrites the unit
number, exactly the effect of content-copy.py lines 149-150. -/
def applyTrace : List (Nat × Nat × String) → Workgroup → Workgroup
  | [], w => w
  | e :: rest, w =>
    applyTrace rest
      (if w.oid == e.2.1 then
        { w with modules := w.modules ++ [e.1], unit_number := e.2.2 }
      else w)

/-- The unit number carried by the LAST trace entry that names the given
workgroup, when any does. -/
def lastUnitFor : List (Nat × Nat × String) → Nat → Option String
  | [], _ => none
  | e :: rest, x =>
    match lastUnitFor rest x with
    | some u => some u
    | none => if x == e.2.1 then some e.2.2 else none

theorem applyTrace_cons (e : Nat × Nat × String) (Δ : List (Nat × Nat × String))
    (w : Workgroup) :
    applyTrace (e :: Δ) w =
      applyTrace Δ
        (if w.oid == e.2.1 then
          { w with modules := w.modules ++ [e.1], unit_number := e.2.2 }
        else w) := rfl

theorem applyTrace_oid (Δ : List (Nat × Nat × String)) (w : Workgroup) :
    (applyTrace Δ w).oid = w.oid := by
  induction Δ generalizing w with
  | nil => rfl
  | cons e rest ih =>
    rw [applyTrace_cons, ih]
    by_cases he : (w.oid == e.2.1) = true <;> simp [he]

theorem applyTrace_unit (Δ : List (Nat × Nat × String)) (w : Workgroup) :
    (applyTrace Δ w).unit_number =
      (lastUnitFor Δ w.oid).getD w.unit_number := by
  induction Δ generalizing w with
  | nil => rfl
  | cons e rest ih =>
    rw [applyTrace_cons, ih]
    by_cases he : (w.oid == e.2.1) = true
    · simp only [he, if_true]
      cases hl : lastUnitFor rest w.oid <;> simp [lastUnitFor, hl, he]
    · simp only [he, Bool.false_eq_true, if_false]
      cases hl : lastUnitFor rest w.oid <;>
        simp [lastUnitFor, hl, he]

theorem map_applyTrace_nil (l : List Workgroup) : l.map (applyTrace []) = l := by
  induction l with
  | nil => rfl
  | cons w rest ih => simp only [List.map_cons, ih]; rfl

/-- The module loop only touches the workgroup store through the
successful-placement trace: the final store is the initial one with the
trace suffix replayed onto every workgroup object. -/
theorem moduleLoopAux_trace (workgroups : Bool) (modFails : Nat → Bool)
    (c2w : List (String × Nat)) :
    ∀ (fuel : Nat) (i : Nat) (st : PhaseState) (tr0 : List (Nat × Nat × String)),
      ∃ Δ, (moduleLoopAux workgroups modFails c2w fuel i st tr0).trace = tr0 ++ Δ ∧
        (moduleLoopAux workgroups modFails c2w fuel i st tr0).st.allWorkgroups =
          st.allWorkgroups.map (applyTrace Δ) := by
  intro fuel
  induction fuel with
  | zero =>
    intro i st tr0
    exact ⟨[], by simp [moduleLoopAux], by simp [moduleLoopAux, map_applyTrace_nil]⟩
  | succ fuel ih =>
    intro i st tr0
    simp only [moduleLoopAux]
    by_cases h : i < st.modules.length
    · rw [dif_pos h]
      by_cases hc1 : ((st.modules.get ⟨i, h⟩).valid &&
          st.chapters.any
            (fun c => c.val == (st.modules.get ⟨i, h⟩).chapter_number.val)) = true
      · rw [if_pos hc1]
        by_cases hw : workgroups = true
        · cases hfind : dictFind c2w (st.modules.get ⟨i, h⟩).chapter_number.val with
          | none =>
            rw [if_pos (by simp [hw, hfind])]
            exact ⟨[], by simp, by simp [map_applyTrace_nil]⟩
          | some wgOid =>
            rw [if_neg (by simp [hfind])]
            by_cases hf : modFails (st.modules.get ⟨i, h⟩).oid = true
            · rw [if_pos hf]
              exact ih (i + 1) _ tr0
            · rw [if_neg hf, if_pos hw]
              obtain ⟨Δ2, h1, h2⟩ := ih (i + 1)
                { st with
                  allWorkgroups := updateWg st.allWorkgroups wgOid
                    (fun w =>
                      { w with
                        modules := w.modules ++ [(st.modules.get ⟨i, h⟩).oid],
                        unit_number := (st.modules.get ⟨i, h⟩).unit_number }) }
                (tr0 ++ [((st.modules.get ⟨i, h⟩).oid, wgOid,
                  (st.modules.get ⟨i, h⟩).unit_number)])
              refine ⟨((st.modules.get ⟨i, h⟩).oid, wgOid,
                (st.modules.get ⟨i, h⟩).unit_number) :: Δ2, ?_, ?_⟩
              · rw [h1]; simp
              · rw [h2]
                simp only [updateWg, List.map_map]
                apply List.map_congr_left
                intro w _
                rw [applyTrace_cons]
                rfl
        · rw [if_neg (by simp [hw])]
          by_cases hf : modFails (st.modules.get ⟨i, h⟩).oid = true
          · rw [if_pos hf]
            exact ih (i + 1) _ tr0
          · rw [if_neg hf, if_neg (by simp [hw])]
            exact ih (i + 1) st tr0
      · rw [if_neg hc1]
        exact ih (i + 1) st tr0
    · rw [dif_neg h]
      exact ⟨[], by simp, by simp [map_applyTrace_nil]⟩

/-- Claim C9 (amended): with workgroups enabled, after placeholder creation
the workgroup store is the initial store with the successful placements
replayed onto it, and each workgroup object id is unchanged while its unit
number equals the unit number of the LAST module successfully placed into it
(the assignment of content-copy.py line 150 runs on every success and
overwrites earlier values), or its initial unit number when no module was
placed into it. -/
theorem claim_C9_unit_last (workgroups : Bool) (modFails : Nat → Bool)
    (c2w : List (String × Nat)) (st : PhaseState) (w0 : Workgroup) :
    (modulePhase workgroups modFails c2w st).st.allWorkgroups =
      st.allWorkgroups.map
        (applyTrace (modulePhase workgroups modFails c2w st).trace) ∧
    (applyTrace (modulePhase workgroups modFails c2w st).trace w0).oid = w0.oid ∧
    (applyTrace (modulePhase workgroups modFails c2w st).trace w0).unit_number =
      (lastUnitFor (modulePhase workgroups modFails c2w st).trace w0.oid).getD
        w0.unit_number := by
  obtain ⟨Δ, h1, h2⟩ :=
    moduleLoopAux_trace workgroups modFails c2w st.modules.length 0 st []
  have hΔ : (modulePhase workgroups modFails c2w st).trace = Δ := by
    simpa [modulePhase] using h1
  refine ⟨?_, ?_, ?_⟩
  · rw [hΔ]; exact h2
  · exact applyTrace_oid _ _
  · exact applyTrace_unit _ _

/-- The two-module one-workgroup state used to refute claim C9 as stated. -/
def stC9 : PhaseState :=
  { chapters := [⟨50, "1"⟩]
    allWorkgroups :=
      [{ oid := 11, title := "B - 1 One", chapter_title := "One", id := "",
         url := "", modules := [], chapter_number := ⟨50, "1"⟩,
         unit_number := "" }]
    workgroupList := [11]
    modules :=
      [{ CNXModule.make 0 "Alpha" "" with
          chapter_number := ⟨50, "1"⟩, unit_number := "1" },
       { CNXModule.make 1 "Beta" "" with
          chapter_number := ⟨50, "1"⟩, unit_number := "2" }]
    failures := [] }

/-- Claim C9 counterexample: two modules of the same chapter with unit
numbers "1" then "2", both placed successfully. The trace shows the module
with unit "1" was placed first, yet the workgroup ends with unit number "2":
the unit number equals that of the LAST placed module, not the first, so it
IS changed by later members, against the claim. -/
theorem claim_C9_counterexample :
    (modulePhase true (fun _ => false) [("1", 11)] stC9).trace =
      [(0, 11, "1"), (1, 11, "2")] ∧
    ((modulePhase true (fun _ => false) [("1", 11)] stC9).st.allWorkgroups.map
      (fun w => w.unit_number)) = ["2"] ∧
    ("2" : String) ≠ "1" := by
  refine ⟨by decide, by decide, by decide⟩

/-! ## Claim C10: monotonicity of the valid flag -/

def defaultModule : CNXModule := CNXModule.make 0 "" ""

/-- The after state never resurrects a module: same module count, and a
module valid afterwards was valid before. -/
def validAntitone (before after : List CNXModule) : Prop :=
  after.length = before.length ∧
  ∀ i, (after.getD i defaultModule).valid = true →
    (before.getD i defaultModule).valid = true

theorem validAntitone_refl (ms : List CNXModule) : validAntitone ms ms :=
  ⟨rfl, fun _ h => h⟩

theorem validAntitone_trans {a b c : List CNXModule}
    (h1 : validAntitone a b) (h2 : validAntitone b c) : validAntitone a c :=
  ⟨h2.1.trans h1.1, fun i h => h1.2 i (h2.2 i h)⟩

theorem validAntitone_map (f : CNXModule → CNXModule)
    (hf : ∀ m, (f m).valid = true → m.valid = true) (ms : List CNXModule) :
    validAntitone ms (ms.map f) := by
  constructor
  · simp
  · intro i
    induction ms generalizing i with
    | nil => intro hx; exact hx
    | cons m rest ih =>
      cases i with
      | zero => simpa using hf m
      | succ j => simpa using ih j

theorem validAntitone_invalidate_cond (p : CNXModule → Bool)
    (ms : List CNXModule) :
    validAntitone ms
      (ms.map (fun m => if p m then { m with valid := false } else m)) := by
  apply validAntitone_map
  intro m hm
  by_cases hp : p m = true
  · rw [if_pos hp] at hm; exact absurd hm (by simp)
  · rwa [if_neg hp] at hm

theorem validAntitone_set (ms : List CNXModule) (i : Nat) (m' : CNXModule)
    (hm : m'.valid = false) : validAntitone ms (ms.set i m') := by
  constructor
  · simp
  · intro j
    induction ms generalizing i j with
    | nil => intro hx; simpa using hx
    | cons a rest ih =>
      cases i with
      | zero =>
        cases j with
        | zero => intro hx; rw [List.set_cons_zero] at hx; simp [hm] at hx
        | succ k => intro hx; simpa using hx
      | succ i2 =>
        cases j with
        | zero => intro hx; simpa using hx
        | succ k =>
          intro hx
          rw [List.set_cons_succ] at hx
          simpa using ih i2 k (by simpa using hx)

theorem validAntitone_invalidateChapter (wgch : PyStr) (ms : List CNXModule) :
    validAntitone ms (invalidateChapterModules wgch ms) :=
  validAntitone_invalidate_cond (fun m => py_is m.chapter_number wgch) ms

/-- The workgroup loop never resurrects a module. -/
theorem wgLoopAux_antitone (wgFails : Nat → Bool) :
    ∀ (fuel i : Nat) (st : PhaseState) (c2w : List (String × Nat))
      (att : List Nat),
      validAntitone st.modules
        (wgLoopAux wgFails fuel i st c2w att).st.modules := by
  intro fuel
  induction fuel with
  | zero => intro i st c2w att; exact validAntitone_refl _
  | succ fuel ih =>
    intro i st c2w att
    simp only [wgLoopAux]
    by_cases h : i < st.workgroupList.length
    · rw [dif_pos h]
      cases hfind : findWg st.allWorkgroups (st.workgroupList.get ⟨i, h⟩) with
      | none => exact validAntitone_refl _
      | some wg =>
        by_cases hfail : wgFails wg.oid = true
        · simp only [hfail, if_true]
          exact validAntitone_trans
            (validAntitone_invalidateChapter wg.chapter_number st.modules)
            (ih (i + 1) _ _ _)
        · simp only [Bool.not_eq_true] at hfail
          simp only [hfail, Bool.false_eq_true, if_false]
          exact ih (i + 1) st _ _
    · rw [dif_neg h]
      exact validAntitone_refl _

/-- The module loop never resurrects a module. -/
theorem moduleLoopAux_antitone (workgroups : Bool) (modFails : Nat → Bool)
    (c2w : List (String × Nat)) :
    ∀ (fuel i : Nat) (st : PhaseState) (tr : List (Nat × Nat × String)),
      validAntitone st.modules
        (moduleLoopAux workgroups modFails c2w fuel i st tr).st.modules := by
  intro fuel
  induction fuel with
  | zero => intro i st tr; exact validAntitone_refl _
  | succ fuel ih =>
    intro i st tr
    simp only [moduleLoopAux]
    by_cases h : i < st.modules.length
    · rw [dif_pos h]
      by_cases hc1 : ((st.modules.get ⟨i, h⟩).valid &&
          st.chapters.any
            (fun c => c.val == (st.modules.get ⟨i, h⟩).chapter_number.val)) = true
      · rw [if_pos hc1]
        by_cases hcrash : (workgroups &&
            (dictFind c2w (st.modules.get ⟨i, h⟩).chapter_number.val).isNone) = true
        · rw [if_pos hcrash]
          exact validAntitone_refl _
        · rw [if_neg hcrash]
          by_cases hf : modFails (st.modules.get ⟨i, h⟩).oid = true
          · rw [if_pos hf]
            exact validAntitone_trans
              (validAntitone_set st.modules i _ rfl)
              (ih (i + 1) _ _)
          · rw [if_neg hf]
            by_cases hw : workgroups = true
            · rw [if_pos hw]
              cases hfind : dictFind c2w (st.modules.get ⟨i, h⟩).chapter_number.val with
              | none => exact validAntitone_refl _
              | some wgOid => exact ih (i + 1) _ _
            · rw [if_neg hw]
              exact ih (i + 1) st _
      · rw [if_neg hc1]
        exact ih (i + 1) st _
    · rw [dif_neg h]
      exact validAntitone_refl _

theorem create_placeholders_antitone (workgroups : Bool)
    (wgFails modFails : Nat → Bool) (st : PhaseState) :
    validAntitone st.modules
      (create_placeholders workgroups wgFails modFails st).st.modules := by
  unfold create_placeholders
  by_cases hw : workgroups = true
  · rw [if_pos hw]
    exact validAntitone_trans
      (wgLoopAux_antitone wgFails st.workgroupList.length 0 st [] [])
      (moduleLoopAux_antitone _ _ _ _ 0 _ [])
  · rw [if_neg hw]
    exact moduleLoopAux_antitone _ _ _ _ 0 _ []

theorem copyPhase_antitone (copyFails : Nat → Bool) (st : PhaseState) :
    validAntitone st.modules (copyPhase copyFails st).modules :=
  validAntitone_invalidate_cond _ st.modules

theorem publish_antitone (dryrun : Bool) (pubFails : Nat → Bool)
    (st : PhaseState) :
    validAntitone st.modules
      (publish_modules_post_copy dryrun pubFails st).modules := by
  unfold publish_modules_post_copy
  by_cases hd : dryrun = true
  · rw [if_pos hd]; exact validAntitone_refl _
  · rw [if_neg hd]; exact validAntitone_invalidate_cond _ st.modules

theorem convertRow_valid (config : BookmapConfiguration) (row : Row)
    (ctr oid : Nat) (m : CNXModule) (ctr2 : Nat)
    (h : convertRow config row ctr oid = Except.ok (m, ctr2)) :
    m.valid = true := by
  unfold convertRow at h
  cases h1 : rowGet row config.module_title_column with
  | none => simp [h1] at h
  | some t =>
    simp only [h1] at h
    cases h2 : strip_section_numbers t with
    | none => simp [h2] at h
    | some st =>
      simp only [h2, Except.ok.injEq, Prod.mk.injEq] at h
      rw [← h.1]

theorem convertModules_valid (config : BookmapConfiguration) :
    ∀ (rows : List Row) (ctr oid : Nat) (ms : List CNXModule) (ctr2 oid2 : Nat),
      convertModules config rows ctr oid = Except.ok (ms, ctr2, oid2) →
      ∀ m ∈ ms, m.valid = true := by
  intro rows
  induction rows with
  | nil =>
    intro ctr oid ms ctr2 oid2 h m hm
    simp only [convertModules, Except.ok.injEq, Prod.mk.injEq] at h
    rw [← h.1] at hm
    simp at hm
  | cons row rest ih =>
    intro ctr oid ms ctr2 oid2 h m hm
    simp only [convertModules] at h
    cases hcr : convertRow config row ctr oid with
    | error e => simp [hcr] at h
    | ok p =>
      obtain ⟨m1, pctr⟩ := p
      simp only [hcr] at h
      cases hcm : convertModules config rest pctr (oid + 1) with
      | error e => simp [hcm] at h
      | ok q =>
        obtain ⟨qs, qctr, qoid⟩ := q
        simp only [hcm, Except.ok.injEq, Prod.mk.injEq] at h
        rw [← h.1] at hm
        rcases List.mem_cons.mp hm with hm1 | hm2
        · rw [hm1]; exact convertRow_valid config row ctr oid m1 pctr hcr
        · exact ih pctr (oid + 1) qs qctr qoid hcm m hm2

/-- Claim C10: the valid flag is monotone over the whole run. Every module
produced by manifest parsing starts with valid = true, and no phase of the
run body (placeholder creation including the workgroup failure cascade, the
spec-modelled copy stage, collection assembly and role acceptance which do
not write module fields, and post-copy publishing) ever sets a valid flag
back to true: a module valid at the end was valid at the start, whatever the
flags and remote outcomes, including runs aborted by the uncaught KeyError
of the module loop. The persisted manifest is a pure function of this final
state. -/
theorem claim_C10_valid_monotone :
    (∀ (config : BookmapConfiguration) (rows : List Row) (ctr oid : Nat)
        (ms : List CNXModule) (ctr2 oid2 : Nat),
      convertModules config rows ctr oid = Except.ok (ms, ctr2, oid2) →
      ∀ m ∈ ms, m.valid = true) ∧
    (∀ (createPh workgroups copyFlag publishFlag dryrun : Bool)
        (wgFails modFails copyFails pubFails : Nat → Bool) (st : PhaseState),
      validAntitone st.modules
        (runPhases createPh workgroups copyFlag publishFlag dryrun
          wgFails modFails copyFails pubFails st).st.modules) := by
  constructor
  · exact fun config => convertModules_valid config
  · intro createPh workgroups copyFlag publishFlag dryrun
      wgFails modFails copyFails pubFails st
    unfold runPhases
    have hcp : validAntitone st.modules
        (if createPh then create_placeholders workgroups wgFails modFails st
         else ⟨false, st, []⟩).st.modules := by
      by_cases hc : createPh = true
      · rw [if_pos hc]; exact create_placeholders_antitone _ _ _ _
      · rw [if_neg hc]; exact validAntitone_refl _
    set r := if createPh then create_placeholders workgroups wgFails modFails st
             else (⟨false, st, []⟩ : ModuleLoopResult) with hr
    by_cases hcr : r.crashed = true
    · rw [if_pos hcr]
      exact hcp
    · rw [if_neg hcr]
      have h2 : validAntitone r.st.modules
          (if copyFlag then copyPhase copyFails r.st else r.st).modules := by
        by_cases hc : copyFlag = true
        · rw [if_pos hc]; exact copyPhase_antitone _ _
        · rw [if_neg hc]; exact validAntitone_refl _
      set st2 := if copyFlag then copyPhase copyFails r.st else r.st with hst2
      have h3 : validAntitone st2.modules
          (if publishFlag then publish_modules_post_copy dryrun pubFails st2
           else st2).modules := by
        by_cases hp : publishFlag = true
        · rw [if_pos hp]; exact publish_antitone _ _ _
        · rw [if_neg hp]; exact validAntitone_refl _
      exact validAntitone_trans hcp (validAntitone_trans h2 h3)

/-- The one-module state used by the C10 witness. -/
def stC10 : PhaseState :=
  { chapters := [⟨50, "1"⟩]
    allWorkgroups :=
      [{ oid := 11, title := "B - 1 One", chapter_title := "One", id := "",
         url := "", modules := [], chapter_number := ⟨50, "1"⟩,
         unit_number := "" }]
    workgroupList := [11]
    modules :=
      [{ CNXModule.make 0 "Alpha" "" with
          chapter_number := ⟨50, "1"⟩, unit_number := "1" }]
    failures := [] }

/-- Claim C10 witness: a parsed module is valid at construction, and in a
fully successful run over a concrete state the module valid at the end is
concluded valid at the start by the monotonicity theorem. -/
theorem claim_C10_witness :
    (CNXModule.make 0 "Intro" "").valid = true ∧
    (stC10.modules.getD 0 defaultModule).valid = true :=
  ⟨claim_C10_valid_monotone.1
      (mkBookmapConfiguration "CN" "CT" "MT" "SID" "SWG" "DID" "DWG" "UN" "UT"
        "no")
      [[("MT", "Intro")]] freshOidBase 0 [CNXModule.make 0 "Intro" ""]
      freshOidBase 1 rfl (CNXModule.make 0 "Intro" "") (by simp),
   (claim_C10_valid_monotone.2 true true true true false
      (fun _ => false) (fun _ => false) (fun _ => false) (fun _ => false)
      stC10).2 0 (by decide)⟩

/-! ## Claim C8: collection assembly placement -/

/-- Where the modules of one workgroup get attached during collection
assembly: directly under the root collection, under a chapter subcollection
hanging off the root, or under a chapter subcollection hanging off a unit
subcollection. -/
inductive ModuleParent where
  | root
  | chapterUnderRoot (chapter_title : String)
  | chapterUnderUnit (unit_number chapter_title : String)
  deriving DecidableEq

/-- The three-part condition repeated on content-copy.py lines 196-198 and
201-203: the chapter is not "0" and the workgroup unit number is neither
APPENDIX nor empty. -/
def chapterEligible (wg : Workgroup) : Bool :=
  !(wg.chapter_number.val == "0") && !(wg.unit_number == "APPENDIX") &&
    !(wg.unit_number == "")

/-- The unit numbers for which step 2 of the assembly creates a unit
subcollection (content-copy.py lines 175-190): units of modules in the
active chapter set, excluding APPENDIX and the empty unit number. The sort
order only affects creation order; membership is what the placement lookup
needs. -/
def unitKeys (st : PhaseState) : List String :=
  dedupFirstAux
    ((st.modules.filter (fun m =>
        st.chapters.any (fun c => c.val == m.chapter_number.val) &&
        !(m.unit_number == "APPENDIX") && !(m.unit_number == ""))).map
      (fun m => m.unit_number)) []

/-- Parent selection for one workgroup (content-copy.py lines 194-210): when
unit grouping is on and the workgroup is eligible the chapter subcollection
is created under the unit subcollection of the workgroup unit number (a
KeyError when no such unit subcollection exists); when the workgroup is
eligible without unit grouping the chapter subcollection hangs off the root;
otherwise the modules attach directly to the root collection. -/
def placeWorkgroup (units : Bool) (keys : List String) (wg : Workgroup) :
    Except String ModuleParent :=
  if units && chapterEligible wg then
    if keys.contains wg.unit_number then
      Except.ok (ModuleParent.chapterUnderUnit wg.unit_number wg.chapter_title)
    else Except.error "KeyError: units_map"
  else if chapterEligible wg then
    Except.ok (ModuleParent.chapterUnderRoot wg.chapter_title)
  else Except.ok ModuleParent.root

/-- The workgroup walk of collection assembly (content-copy.py lines
191-219): every workgroup whose chapter is in the active chapter set has all
its member modules attached under its module parent; remote subcollection
creation is abstracted (its failure would abort the stage early, which no
claim here concerns). Result entries are (workgroup oid, member module oid,
parent). -/
def assembleGo (units : Bool) (keys : List String) (aws : List Workgroup)
    (chapters : List PyStr) :
    List Nat → Except String (List (Nat × Nat × ModuleParent))
  | [] => Except.ok []
  | woid :: rest =>
    match findWg aws woid with
    | none => assembleGo units keys aws chapters rest
    | some wg =>
      if chapters.any (fun c => c.val == wg.chapter_number.val) then
        match placeWorkgroup units keys wg with
        | Except.error e => Except.error e
        | Except.ok p =>
          match assembleGo units keys aws chapters rest with
          | Except.error e => Except.error e
          | Except.ok tail =>
            Except.ok ((wg.modules.map (fun moid => (woid, moid, p))) ++ tail)
      else assembleGo units keys aws chapters rest

/-- create_populate_and_publish_collection (content-copy.py lines 160-219)
restricted to the placement decisions: in a dry run nothing is attached at
all; otherwise every active workgroup places its members under its computed
parent. -/
def assemblePlacements (units dry_run : Bool) (st : PhaseState) :
    Except String (List (Nat × Nat × ModuleParent)) :=
  if dry_run then Except.ok []
  else assembleGo units (unitKeys st) st.allWorkgroups st.chapters
    st.workgroupList

theorem placeWorkgroup_root (units : Bool) (keys : List String)
    (wg : Workgroup)
    (hcond : wg.chapter_number.val = "0" ∨ wg.unit_number = "APPENDIX" ∨
      wg.unit_number = "") :
    placeWorkgroup units keys wg = Except.ok ModuleParent.root := by
  have hB : chapterEligible wg = false := by
    unfold chapterEligible
    rcases hcond with h | h | h <;> simp [h]
  unfold placeWorkgroup
  rw [hB]
  simp

theorem assembleGo_root (units : Bool) (keys : List String)
    (aws : List Workgroup) (chapters : List PyStr) :
    ∀ (l : List Nat) (res : List (Nat × Nat × ModuleParent)),
      assembleGo units keys aws chapters l = Except.ok res →
      ∀ woid moid p, (woid, moid, p) ∈ res →
        ∀ wg, findWg aws woid = some wg →
          (wg.chapter_number.val = "0" ∨ wg.unit_number = "APPENDIX" ∨
            wg.unit_number = "") →
          p = ModuleParent.root := by
  intro l
  induction l with
  | nil =>
    intro res h woid moid p hmem wg hwg hcond
    simp only [assembleGo, Except.ok.injEq] at h
    rw [← h] at hmem
    simp at hmem
  | cons w0 rest ih =>
    intro res h woid moid p hmem wg hwg hcond
    simp only [assembleGo] at h
    cases hfind : findWg aws w0 with
    | none =>
      simp only [hfind] at h
      exact ih res h woid moid p hmem wg hwg hcond
    | some wg0 =>
      simp only [hfind] at h
      by_cases hch : (chapters.any (fun c => c.val == wg0.chapter_number.val)) = true
      · simp only [hch, if_true] at h
        cases hpl : placeWorkgroup units keys wg0 with
        | error e => simp [hpl] at h
        | ok p0 =>
          simp only [hpl] at h
          cases hrec : assembleGo units keys aws chapters rest with
          | error e => simp [hrec] at h
          | ok tail =>
            simp only [hrec, Except.ok.injEq] at h
            rw [← h] at hmem
            rcases List.mem_append.mp hmem with hm1 | hm2
            · obtain ⟨moid2, -, heq⟩ := List.mem_map.mp hm1
              simp only [Prod.mk.injEq] at heq
              obtain ⟨he1, -, he3⟩ := heq
              rw [he1] at hfind
              rw [hfind] at hwg
              have hw0 : wg0 = wg := by simpa using hwg
              rw [hw0, placeWorkgroup_root units keys wg hcond] at hpl
              have hp0 : ModuleParent.root = p0 := by simpa using hpl
              rw [← he3, ← hp0]
            · exact ih tail hrec woid moid p hm2 wg hwg hcond
      · simp only [Bool.not_eq_true] at hch
        simp only [hch, Bool.false_eq_true, if_false] at h
        exact ih res h woid moid p hmem wg hwg hcond

/-- Claim C8 (amended): outside dry runs, with unit grouping enabled, the
modules of a workgroup whose chapter number is "0" or whose unit number is
APPENDIX or empty are attached directly to the root collection (no chapter
subcollection, no unit subcollection). The placement of a module follows its
WORKGROUP: a module whose own unit number is APPENDIX can still land under a
unit subcollection when its workgroup carries a different (lazily overwritten)
unit number, so the claim as stated fails for such modules (see the
counterexample). -/
theorem claim_C8_placement (units dry_run : Bool) (st : PhaseState)
    (res : List (Nat × Nat × ModuleParent)) (woid moid : Nat)
    (p : ModuleParent) (wg : Workgroup)
    (hres : assemblePlacements units dry_run st = Except.ok res)
    (hmem : (woid, moid, p) ∈ res)
    (hwg : findWg st.allWorkgroups woid = some wg)
    (hcond : wg.chapter_number.val = "0" ∨ wg.unit_number = "APPENDIX" ∨
      wg.unit_number = "") :
    p = ModuleParent.root := by
  unfold assemblePlacements at hres
  by_cases hd : dry_run = true
  · rw [if_pos hd] at hres
    simp only [Except.ok.injEq] at hres
    rw [← hres] at hmem
    simp at hmem
  · rw [if_neg hd] at hres
    exact assembleGo_root units (unitKeys st) st.allWorkgroups st.chapters
      st.workgroupList res hres woid moid p hmem wg hwg hcond

/-- A state with one chapter whose modules carry mixed unit numbers: the
APPENDIX module shares workgroup 11 with a module of unit "1", and the
workgroup unit number ended as "1" (the unit of the last placed member). -/
def stC8 : PhaseState :=
  { chapters := [⟨50, "1"⟩]
    allWorkgroups :=
      [{ oid := 11, title := "B - 1 One", chapter_title := "Chapter One",
         id := "", url := "", modules := [0, 1],
         chapter_number := ⟨50, "1"⟩, unit_number := "1" }]
    workgroupList := [11]
    modules :=
      [{ CNXModule.make 0 "Appendix Tables" "" with
          chapter_number := ⟨50, "1"⟩, unit_number := "APPENDIX",
          unit_title := "Appendix" },
       { CNXModule.make 1 "Kinematics" "" with
          chapter_number := ⟨50, "1"⟩, unit_number := "1",
          unit_title := "Mechanics" }]
    failures := [] }

/-- Claim C8 counterexample: with unit grouping enabled, module 0, whose own
unit number is APPENDIX, is placed under the chapter subcollection that
hangs off unit subcollection "1", because its workgroup carries unit number
"1": a module with unit APPENDIX IS placed under a unit subcollection,
refuting the second half of the claim as stated. -/
theorem claim_C8_counterexample :
    assemblePlacements true false stC8 =
      Except.ok
        [(11, 0, ModuleParent.chapterUnderUnit "1" "Chapter One"),
         (11, 1, ModuleParent.chapterUnderUnit "1" "Chapter One")] ∧
    (stC8.modules.getD 0 defaultModule).unit_number = "APPENDIX" := by
  exact ⟨by decide, rfl⟩

/-- The state for the C8 witness: a workgroup whose unit number is APPENDIX
attaches its module directly to the root collection. -/
def stC8app : PhaseState :=
  { chapters := [⟨50, "1"⟩]
    allWorkgroups :=
      [{ oid := 11, title := "B - 1 App", chapter_title := "Appendix A",
         id := "", url := "", modules := [0],
         chapter_number := ⟨50, "1"⟩, unit_number := "APPENDIX" }]
    workgroupList := [11]
    modules :=
      [{ CNXModule.make 0 "Appendix Tables" "" with
          chapter_number := ⟨50, "1"⟩, unit_number := "APPENDIX" }]
    failures := [] }

/-- Claim C8 witness: the amended placement theorem applied to a concrete
APPENDIX workgroup, every hypothesis discharged by computation. -/
theorem claim_C8_witness :
    assemblePlacements true false stC8app =
      Except.ok [(11, 0, ModuleParent.root)] ∧
    ModuleParent.root = ModuleParent.root :=
  ⟨by decide,
   claim_C8_placement true false stC8app [(11, 0, ModuleParent.root)] 11 0
     ModuleParent.root
     { oid := 11, title := "B - 1 App", chapter_title := "Appendix A",
       id := "", url := "", modules := [0],
       chapter_number := ⟨50, "1"⟩, unit_number := "APPENDIX" }
     (by decide) (by decide) (by decide) (Or.inr (Or.inl rfl))⟩
